import Mathlib

/-!
# Rettiwt-API — verification of the Fetch-Extract-Cursor pipeline

Shallow embedding of the TweetService operations (`src/services/public/TweetService.ts`)
and the response-extraction table (`extractors`), together with proofs of the claimed
properties: descending sort normalization of `search`/`list`, boolean mutation outcome
semantics, the three-phase media upload protocol, sequential media upload in `post`,
and the polling stream generator's trace behavior.

JavaScript values are modelled by an inductive `Json` type; property access with
optional chaining (`a?.b`) is `jsGet`, JS truthiness is `truthy`, and the nullish
coalescing operator (`x ?? undefined`) is `jsCoalesce`.  Asynchronous service methods
become pure functions from the raw response (or from a transport oracle) to an
`Except`-typed result; the event order of awaited network calls is made observable
through explicit call logs / event traces.
-/

/-- A JSON-shaped JavaScript value (the `RawResponse` of the spec).  `null` covers both
JS `null` and JSON null; absence of a value (JS `undefined`) is modelled by `Option`. -/
inductive Json where
  | null : Json
  | bool (b : Bool) : Json
  | num (n : Int) : Json
  | str (s : String) : Json
  | arr (elems : List Json) : Json
  | obj (fields : List (String × Json)) : Json

/-- First-match field lookup in a JS object literal. -/
def lookupField : List (String × Json) → String → Option Json
  | [], _ => none
  | (k, v) :: rest, key => if k = key then some v else lookupField rest key

/-- JS optional-chained property access `base?.key`: on an object, field lookup; on any
defined non-object value (number, string, …) the access yields `undefined`; `?.` also
turns access on `undefined`/`null` into `undefined` instead of a TypeError. -/
def jsGet (base : Option Json) (key : String) : Option Json :=
  match base with
  | some (Json.obj fields) => lookupField fields key
  | _ => none

/-- JS truthiness of a possibly-undefined value: `undefined`, `null`, `false`, `0` and
the empty string are falsy; every object (including the empty object), every non-empty
string and every non-zero number is truthy. -/
def truthy : Option Json → Bool
  | none => false
  | some Json.null => false
  | some (Json.bool b) => b
  | some (Json.num n) => n != 0
  | some (Json.str s) => s != ""
  | some (Json.arr _) => true
  | some (Json.obj _) => true

/-- JS nullish coalescing `v ?? undefined`: a present `null` collapses to `undefined`. -/
def jsCoalesce (v : Option Json) : Option Json :=
  match v with
  | some Json.null => none
  | v => v

/-- Error taxonomy of the spec (§7), restricted to the constructors the claims touch. -/
inductive RettiwtErr where
  | malformedResponse : RettiwtErr
  | uploadInitFailed : RettiwtErr
  | transportErr (status : Nat) : RettiwtErr
deriving DecidableEq

/-- An opaque forward-pagination token (`models/data/Cursor`). -/
structure Cursor where
  value : String
deriving DecidableEq

/-- The cursored collection `CursoredData<T>`: the ordered batch of entities plus the `next` cursor
(absent when no further data exists). -/
structure CursoredData (T : Type) where
  list : List T
  next : Option Cursor
deriving DecidableEq

/-- The resource identifiers of the extractor table in `src/unnamed/part_001`
(`EResourceType`; the enum itself lives in `enums/Resource.ts`, outside `src/`).
`MEDIA_UPLOAD_INIT` stands for the source key `MEDIA_UPLOAD_` + `INITIALIZE`. -/
inductive EResourceType where
  | LIST_TWEETS
  | MEDIA_UPLOAD_APPEND
  | MEDIA_UPLOAD_FINALIZE
  | MEDIA_UPLOAD_INIT
  | TWEET_RETWEET
  | TWEET_CREATE
  | TWEET_FAVORITE
  | TWEET_SEARCH
  | TWEET_DETAILS
  | TWEET_FAVORITERS
  | TWEET_RETWEETERS
  | USER_DETAILS_BY_USERNAME
  | USER_DETAILS_BY_ID
  | USER_FOLLOWING
  | USER_FOLLOWERS
  | USER_HIGHLIGHTS
  | USER_LIKES
  | USER_MEDIA
  | USER_SUBSCRIPTIONS
  | USER_TWEETS
  | USER_TWEETS_AND_REPLIES
deriving DecidableEq

/-- The polymorphic extraction result (`AllReturnTypes` union of the source): a boolean
mutation outcome, a scalar identifier, a single entity, or a cursored collection. -/
inductive AllReturnTypes where
  | boolean (b : Bool)
  | scalar (v : Json)
  | entity (v : Json)
  | cursored (d : CursoredData Json)

/-- Modelled from the spec: the payload list of a cursored response.  The concrete wire
schema is explicitly out of the spec's scope (§1 non-goals), so the batch is read from
an `entries` array when present and is empty otherwise (missing nested fields resolve
to absent, §4.3). -/
def cursoredEntries (response : Json) : List Json :=
  match jsGet (some response) "entries" with
  | some (Json.arr xs) => xs
  | _ => []

/-- Modelled from the spec: the `next` cursor of a cursored response — an opaque string
token when present (§4.5), absent otherwise. -/
def cursoredNext (response : Json) : Option Cursor :=
  match jsGet (some response) "next" with
  | some (Json.str s) => some ⟨s⟩
  | _ => none

/-- Modelled from the spec: the `CursoredData` constructor (`models/data/CursoredData.ts`,
not under `src/`).  Per §4.3/§4.5 it builds the ordered batch and the `next` cursor from
the raw response and fails loudly with `MalformedResponse` when the top-level envelope is
not a JSON object; being a constructor, on success it always yields a `CursoredData`
value, never `undefined`. -/
def CursoredData.ofResponse (response : Json) : Except RettiwtErr (CursoredData Json) :=
  match response with
  | Json.obj _ => Except.ok { list := cursoredEntries response, next := cursoredNext response }
  | _ => Except.error RettiwtErr.malformedResponse

/-- Modelled from the spec: `Tweet.single` / `User.single` (`models/data`, not under
`src/`).  A single-entity extraction fails with `MalformedResponse` when the envelope is
not a JSON object (§4.3) and otherwise yields the entity found under the response's data
payload, or absent when the nested payload is missing. -/
def singleEntity (response : Json) : Except RettiwtErr (Option AllReturnTypes) :=
  match response with
  | Json.obj _ => Except.ok ((jsGet (some response) "data").map AllReturnTypes.entity)
  | _ => Except.error RettiwtErr.malformedResponse

/-- The success marker read by the `TWEET_FAVORITE` extractor:
`(response as ITweetLikeResponse)?.data?.favorite_tweet`. -/
def favMarker (response : Json) : Option Json :=
  jsGet (jsGet (some response) "data") "favorite_tweet"

/-- The success marker read by the `TWEET_RETWEET` extractor:
`(response as ITweetRetweetResponse)?.data?.create_retweet`. -/
def retweetMarker (response : Json) : Option Json :=
  jsGet (jsGet (some response) "data") "create_retweet"

/-- The extractor table of `src/unnamed/part_001` (`extractors`), keyed by resource
identifier.  A result of `Except.ok none` is the JS `undefined`; cursored and
single-entity extractors delegate to the spec-modelled constructors above; the boolean
mutation extractors are the source's `marker ? true : false` on the optionally-chained
success marker; `TWEET_CREATE` and `MEDIA_UPLOAD_INIT` are the source's
`… ?? undefined` scalar reads. -/
def extractors : EResourceType → Json → Except RettiwtErr (Option AllReturnTypes)
  | EResourceType.LIST_TWEETS, r =>
      (CursoredData.ofResponse r).map (fun d => some (AllReturnTypes.cursored d))
  | EResourceType.MEDIA_UPLOAD_APPEND, _ => Except.ok none
  | EResourceType.MEDIA_UPLOAD_FINALIZE, _ => Except.ok none
  | EResourceType.MEDIA_UPLOAD_INIT, r =>
      Except.ok ((jsCoalesce (jsGet (some r) "media_id_string")).map AllReturnTypes.scalar)
  | EResourceType.TWEET_RETWEET, r =>
      Except.ok (some (AllReturnTypes.boolean (truthy (retweetMarker r))))
  | EResourceType.TWEET_CREATE, r =>
      Except.ok ((jsCoalesce (jsGet (jsGet (jsGet (jsGet (jsGet (some r) "data")
        "create_tweet") "tweet_results") "result") "rest_id")).map AllReturnTypes.scalar)
  | EResourceType.TWEET_FAVORITE, r =>
      Except.ok (some (AllReturnTypes.boolean (truthy (favMarker r))))
  | EResourceType.TWEET_SEARCH, r =>
      (CursoredData.ofResponse r).map (fun d => some (AllReturnTypes.cursored d))
  | EResourceType.TWEET_DETAILS, r => singleEntity r
  | EResourceType.TWEET_FAVORITERS, r =>
      (CursoredData.ofResponse r).map (fun d => some (AllReturnTypes.cursored d))
  | EResourceType.TWEET_RETWEETERS, r =>
      (CursoredData.ofResponse r).map (fun d => some (AllReturnTypes.cursored d))
  | EResourceType.USER_DETAILS_BY_USERNAME, r => singleEntity r
  | EResourceType.USER_DETAILS_BY_ID, r => singleEntity r
  | EResourceType.USER_FOLLOWING, r =>
      (CursoredData.ofResponse r).map (fun d => some (AllReturnTypes.cursored d))
  | EResourceType.USER_FOLLOWERS, r =>
      (CursoredData.ofResponse r).map (fun d => some (AllReturnTypes.cursored d))
  | EResourceType.USER_HIGHLIGHTS, r =>
      (CursoredData.ofResponse r).map (fun d => some (AllReturnTypes.cursored d))
  | EResourceType.USER_LIKES, r =>
      (CursoredData.ofResponse r).map (fun d => some (AllReturnTypes.cursored d))
  | EResourceType.USER_MEDIA, r =>
      (CursoredData.ofResponse r).map (fun d => some (AllReturnTypes.cursored d))
  | EResourceType.USER_SUBSCRIPTIONS, r =>
      (CursoredData.ofResponse r).map (fun d => some (AllReturnTypes.cursored d))
  | EResourceType.USER_TWEETS, r =>
      (CursoredData.ofResponse r).map (fun d => some (AllReturnTypes.cursored d))
  | EResourceType.USER_TWEETS_AND_REPLIES, r =>
      (CursoredData.ofResponse r).map (fun d => some (AllReturnTypes.cursored d))

/-- The resources whose extractor builds a `CursoredData` (claim C9's list). -/
def isCursoredResource : EResourceType → Bool
  | EResourceType.LIST_TWEETS => true
  | EResourceType.TWEET_SEARCH => true
  | EResourceType.TWEET_FAVORITERS => true
  | EResourceType.TWEET_RETWEETERS => true
  | EResourceType.USER_FOLLOWING => true
  | EResourceType.USER_FOLLOWERS => true
  | EResourceType.USER_HIGHLIGHTS => true
  | EResourceType.USER_LIKES => true
  | EResourceType.USER_MEDIA => true
  | EResourceType.USER_SUBSCRIPTIONS => true
  | EResourceType.USER_TWEETS => true
  | EResourceType.USER_TWEETS_AND_REPLIES => true
  | _ => false

/-- Whether a `Json` value is an object (the expected top-level envelope shape). -/
def Json.isObj : Json → Bool
  | Json.obj _ => true
  | _ => false

/-- The normalized tweet entity, restricted to the fields the claims read: the stable
identifier and the creation timestamp.  `createdAt` holds the millisecond value
`new Date(t.createdAt).valueOf()` that the source's sort comparator computes from the
textual timestamp. -/
structure Tweet where
  id : String
  createdAt : Int
deriving DecidableEq

/-- The ordering used by `data.list.sort((a, b) => ...)` in `TweetService.search` and
`TweetService.list`: the comparator `new Date(b.createdAt) - new Date(a.createdAt)` is
non-positive exactly when `b.createdAt ≤ a.createdAt`, so the sorted order is descending
by `createdAt` (most recent first). -/
def tweetGE (a b : Tweet) : Prop := b.createdAt ≤ a.createdAt

instance : DecidableRel tweetGE := fun a b => Int.decLe b.createdAt a.createdAt

instance : IsTotal Tweet tweetGE :=
  ⟨fun a b => le_total b.createdAt a.createdAt⟩

instance : IsTrans Tweet tweetGE :=
  ⟨fun _ _ _ hab hbc => le_trans hbc hab⟩

/-- The call `Array.prototype.sort` with the descending-date comparator.  JS `sort` is stable
(ES2019), matching `List.insertionSort`, which keeps equal-rated elements in input
order. -/
def jsSortByDateDesc (l : List Tweet) : List Tweet :=
  l.insertionSort tweetGE

/-- Embedding of `TweetService.search` (TweetService.ts:448-465), per raw response.  The fetch and
the `CursoredData<Tweet>` deserialization are represented by their combined result `d`
(the value of `this.extract<CursoredData<Tweet>>(response, resource)!`); the method then
sorts the extracted list by date, from recent to oldest, and returns the data. -/
def TweetService.search (d : CursoredData Tweet) : CursoredData Tweet :=
  { d with list := jsSortByDateDesc d.list }

/-- Embedding of `TweetService.list` (TweetService.ts:184-201), per raw response; identical
post-processing to `search`: the extracted list is sorted by date, recent to oldest. -/
def TweetService.list (d : CursoredData Tweet) : CursoredData Tweet :=
  { d with list := jsSortByDateDesc d.list }

/-- Embedding of `TweetService.like` (TweetService.ts:102-112), per raw response: the extraction
result for the favorite resource, with the source's `?? false` defaulting applied to a
JS-`undefined` extraction result.  (The service requests `EResourceType.TWEET_LIKE`,
whose extractor table key is `TWEET_FAVORITE`.) -/
def TweetService.like (response : Json) : Except RettiwtErr AllReturnTypes :=
  (extractors EResourceType.TWEET_FAVORITE response).map
    (fun r => r.getD (AllReturnTypes.boolean false))

/-- Embedding of `TweetService.retweet` (TweetService.ts:364-374), per raw response: the extraction
result for the retweet resource with the `?? false` defaulting. -/
def TweetService.retweet (response : Json) : Except RettiwtErr AllReturnTypes :=
  (extractors EResourceType.TWEET_RETWEET response).map
    (fun r => r.getD (AllReturnTypes.boolean false))

/-! ## The streaming generator (`TweetService.stream`, TweetService.ts:496-530)

The async generator is embedded as a deterministic transition function on the
generator's local state, driven by a search oracle standing for the upstream responses.
Each loop iteration is made observable as a list of events: the interval sleep, the
`this.search` invocation with its `sinceId`/`cursor` arguments, and the yields. -/

/-- The generator's local mutable state (`StreamState` of the spec §3). -/
structure StreamState where
  cursor : Option String
  sinceId : Option String
  nextSinceId : Option String
deriving DecidableEq

/-- The arguments of one `this.search({ ...filter, startDate, sinceId }, undefined,
cursor)` call that vary across iterations (`filter` and `startDate` are fixed at
generator creation). -/
structure SearchArgs where
  sinceId : Option String
  cursor : Option String
deriving DecidableEq

/-- Observable events of a stream iteration: the `setTimeout` suspension, the search
request, and each yielded tweet, in program order. -/
inductive StreamEvent where
  | sleep (ms : Nat)
  | searchCall (sinceId : Option String) (cursor : Option String)
  | yielded (t : Tweet)
deriving DecidableEq

/-- One iteration of the generator's `while (true)` body: sleep for the polling
interval, search (the oracle supplies the extraction result, which `this.search`
sorts), yield every tweet of the batch, then update `nextSinceId`, `cursor` and
`sinceId` exactly as the source does. -/
def streamIter (oracle : SearchArgs → CursoredData Tweet) (pollingInterval : Nat)
    (s : StreamState) : List StreamEvent × StreamState :=
  let tweets := TweetService.search (oracle ⟨s.sinceId, s.cursor⟩)
  let events := StreamEvent.sleep pollingInterval ::
    StreamEvent.searchCall s.sinceId s.cursor :: tweets.list.map StreamEvent.yielded
  let nsi : Option String :=
    if 0 < tweets.list.length ∧ s.cursor = none
    then tweets.list.head?.map Tweet.id
    else s.nextSinceId
  let s' : StreamState :=
    if 0 < tweets.list.length ∧ tweets.next.isSome
    then { cursor := tweets.next.map Cursor.value, sinceId := s.sinceId, nextSinceId := nsi }
    else { cursor := none, sinceId := nsi, nextSinceId := nsi }
  (events, s')

/-- The generator's initial state: `cursor`, `sinceId` and `nextSinceId` all start
`undefined`. -/
def streamInit : StreamState := ⟨none, none, none⟩

/-- The first `n` iterations of the generator loop: the concatenated event trace and
the state reached.  The source loop never terminates on its own, so every `n` is a
prefix of the infinite run. -/
def streamRun (oracle : SearchArgs → CursoredData Tweet) (pollingInterval : Nat) :
    Nat → List StreamEvent × StreamState
  | 0 => ([], streamInit)
  | n + 1 =>
    let (evs, s) := streamRun oracle pollingInterval n
    let (evs2, s') := streamIter oracle pollingInterval s
    (evs ++ evs2, s')

/-! ## Media upload (`TweetService.upload`, TweetService.ts:559-575)

The three `this.request` calls are made against a transport oracle; the call log
records each request with its exact arguments, in the order it was awaited.  A media
payload is its byte list (the `ArrayBuffer` branch of the source; the file-path branch
reads the size from the filesystem, an external boundary).  The media id read from the
Initialize response is `Option Json`: the source accesses `.media_id_string` without
any presence check, so a response lacking the field yields JS `undefined`. -/

/-- One `this.request` of the upload protocol, with the arguments the source sends:
Initialize carries `upload.size`, Append carries `upload.id` and `upload.media`,
Finalize carries `upload.id` alone. -/
inductive UploadCall where
  | initCall (size : Nat)
  | appendCall (id : Option Json) (media : List Nat)
  | finalizeCall (id : Option Json)

/-- The `media_id_string` field of the Initialize response (plain property access, no
optional chaining needed since an awaited `request` result is defined). -/
def mediaIdOf (response : Json) : Option Json :=
  jsGet (some response) "media_id_string"

/-- Embedding of `TweetService.upload`: Initialize with the payload's byte size, read
`media_id_string` from the response, Append with that id and the payload, Finalize with
the same id, and return the id.  Each phase awaits the prior; a rejected request
propagates immediately, so the log stops at the failed phase. -/
def TweetService.upload (oracle : UploadCall → Except RettiwtErr Json)
    (media : List Nat) : Except RettiwtErr (Option Json) × List UploadCall :=
  match oracle (UploadCall.initCall media.length) with
  | Except.error e => (Except.error e, [UploadCall.initCall media.length])
  | Except.ok initResp =>
    let id := mediaIdOf initResp
    match oracle (UploadCall.appendCall id media) with
    | Except.error e =>
        (Except.error e, [UploadCall.initCall media.length, UploadCall.appendCall id media])
    | Except.ok _ =>
      match oracle (UploadCall.finalizeCall id) with
      | Except.error e =>
          (Except.error e,
            [UploadCall.initCall media.length, UploadCall.appendCall id media,
              UploadCall.finalizeCall id])
      | Except.ok _ =>
          (Except.ok id,
            [UploadCall.initCall media.length, UploadCall.appendCall id media,
              UploadCall.finalizeCall id])

/-! ## Posting (`TweetService.post`, TweetService.ts:303-337) -/

/-- One media item of the post options (`path` names the file or buffer; `tags` are the
user tags). -/
structure MediaItem where
  path : String
  tags : List String

/-- Modelled from the spec: `TweetArgs` (`models/args/public/TweetArgs.ts`, not under
`src/`) — the argument validation wrapper `new TweetArgs(options)`; it validates and
carries the caller's fields unchanged. -/
structure TweetArgs where
  text : Option String
  media : List MediaItem
  quote : Option String
  replyTo : Option String

/-- Modelled from the spec: the `TweetArgs` constructor copies the options it
validated. -/
def TweetArgs.ofOptions (options : TweetArgs) : TweetArgs := options

/-- Modelled from the spec: `TweetMediaArgs` (`models/args/internal/PostArgs.ts`, not
under `src/`) — `new TweetMediaArgs({ id, tags })` carries the uploaded media id and
the item's tags.  The id is `Option Json` because `this.upload` resolves with the
unchecked `media_id_string` of the Initialize response. -/
structure TweetMediaArgs where
  id : Option Json
  tags : List String

/-- Observable events of `post`: each awaited `this.upload(item.path)` and the single
tweet-creation request with its full payload, in program order. -/
inductive PostEvent where
  | uploadCall (path : String)
  | createCall (text : Option String) (media : List TweetMediaArgs)
      (quote : Option String) (replyTo : Option String)

/-- The `for (const item of tweet.media)` loop of `post`: upload each item in order
(each awaited before the next begins) and collect the `TweetMediaArgs` in the same
order; a rejected upload propagates, aborting the loop. -/
def postUploadLoop (uploadOracle : String → Except RettiwtErr (Option Json)) :
    List MediaItem → Except RettiwtErr (List TweetMediaArgs) × List PostEvent
  | [] => (Except.ok [], [])
  | item :: rest =>
    match uploadOracle item.path with
    | Except.error e => (Except.error e, [PostEvent.uploadCall item.path])
    | Except.ok id =>
      let (r, evs) := postUploadLoop uploadOracle rest
      (r.map (fun ms => TweetMediaArgs.mk id item.tags :: ms),
        PostEvent.uploadCall item.path :: evs)

/-- Embedding of `TweetService.post`: validate the options, upload every media item sequentially,
then issue the single `TWEET_CREATE` request whose payload carries `options.text`, the
uploaded media (in order), `options.quote` and `options.replyTo`, and extract the new
tweet's id from the response.  `uploadOracle` stands for `this.upload` on a given path;
`createOracle` stands for the transport behind the creation `this.request`. -/
def TweetService.post (uploadOracle : String → Except RettiwtErr (Option Json))
    (createOracle : Option String → List TweetMediaArgs → Option String → Option String →
      Except RettiwtErr Json)
    (options : TweetArgs) : Except RettiwtErr (Option AllReturnTypes) × List PostEvent :=
  let tweet := TweetArgs.ofOptions options
  match postUploadLoop uploadOracle tweet.media with
  | (Except.error e, evs) => (Except.error e, evs)
  | (Except.ok uploadedMedia, evs) =>
    match createOracle options.text uploadedMedia options.quote options.replyTo with
    | Except.error e =>
        (Except.error e,
          evs ++ [PostEvent.createCall options.text uploadedMedia options.quote options.replyTo])
    | Except.ok response =>
        (extractors EResourceType.TWEET_CREATE response,
          evs ++ [PostEvent.createCall options.text uploadedMedia options.quote options.replyTo])

/-! ## Concrete scenarios (mock transports and raw responses) -/

/-- The scenario tweet `e1` (timestamp 5, the more recent one). -/
def e1 : Tweet := ⟨"e1", 5⟩

/-- The scenario tweet `e2` (timestamp 3). -/
def e2 : Tweet := ⟨"e2", 3⟩

/-- Mocked search of the streaming scenario: the first round's search (no `sinceId`, no
cursor) returns the batch `[e1, e2]` with `next` absent; every other search returns an
empty batch. -/
def streamScenarioSearch (a : SearchArgs) : CursoredData Tweet :=
  if a = ⟨none, none⟩ then ⟨[e1, e2], none⟩ else ⟨[], none⟩

/-- Mocked search for the intra-round continuation behavior: the first round's search
returns a non-empty batch `[e1]` together with a `next` cursor token, and every other
search returns an empty batch. -/
def streamCursorOracle (a : SearchArgs) : CursoredData Tweet :=
  if a = ⟨none, none⟩ then ⟨[e1], some ⟨"c"⟩⟩ else ⟨[], none⟩

/-- Whether an event is an interval sleep. -/
def isSleepEvent : StreamEvent → Bool
  | StreamEvent.sleep _ => true
  | _ => false

/-- Whether an event is a search issued with a pagination cursor (a cursor-continuation
sub-page request). -/
def isCursorSearch : StreamEvent → Bool
  | StreamEvent.searchCall _ (some _) => true
  | _ => false

/-- Whether some cursor-continuation search in the trace is immediately preceded by an
interval sleep. -/
def sleepPrecedesCursorSearch (evs : List StreamEvent) : Bool :=
  (evs.zip evs.tail).any (fun p => isSleepEvent p.1 && isCursorSearch p.2)

/-- A transport whose Initialize response carries `media_id_string = "123"` and whose
Append/Finalize requests succeed. -/
def uploadOkOracle : UploadCall → Except RettiwtErr Json
  | UploadCall.initCall _ => Except.ok (Json.obj [("media_id_string", Json.str "123")])
  | _ => Except.ok Json.null

/-- A transport whose Initialize response is an empty object — it contains no media
identifier — and whose later requests succeed. -/
def uploadNoIdOracle : UploadCall → Except RettiwtErr Json
  | UploadCall.initCall _ => Except.ok (Json.obj [])
  | _ => Except.ok Json.null

/-- A raw like response whose success marker `data.favorite_tweet` is present but is
the empty object. -/
def likeEmptyMarkerResponse : Json :=
  Json.obj [("data", Json.obj [("favorite_tweet", Json.obj [])])]

/-- A raw retweet response whose success marker `data.create_retweet` is present but is
the empty object. -/
def retweetEmptyMarkerResponse : Json :=
  Json.obj [("data", Json.obj [("create_retweet", Json.obj [])])]

/-- The resolved value of a fulfilled upload (`none` on a rejected one; only applied to
fulfilled results). -/
def uploadResultId : Except RettiwtErr (Option Json) → Option Json
  | Except.ok v => v
  | Except.error _ => none

/-- Whether an upload result is a fulfilled promise. -/
def isOkResult : Except RettiwtErr (Option Json) → Bool
  | Except.ok _ => true
  | Except.error _ => false

/-- Post options with two media items (in this order) and a text. -/
def postWitnessOptions : TweetArgs :=
  ⟨some "hi", [⟨"a.jpg", ["u1"]⟩, ⟨"b.jpg", []⟩], none, none⟩

/-- An upload stub resolving `a.jpg` to media id `m1` and anything else to `m2`. -/
def postWitnessUpload (path : String) : Except RettiwtErr (Option Json) :=
  if path = "a.jpg" then Except.ok (some (Json.str "m1")) else Except.ok (some (Json.str "m2"))

/-- A creation transport stub returning an empty-object response. -/
def postWitnessCreate (_text : Option String) (_media : List TweetMediaArgs)
    (_quote : Option String) (_replyTo : Option String) : Except RettiwtErr Json :=
  Except.ok (Json.obj [])

/-! ## Theorems -/

/-- C1: for every raw response, the list returned by `TweetService.search`
(`TWEET_SEARCH`) and by `TweetService.list` (`LIST_TWEETS`) is sorted by `createdAt`
descending (each element's `createdAt` is ≥ every later one) and is a permutation of
the extracted list; on raw entities with timestamps `[30, 10, 20]` the returned order
is `[30, 20, 10]` (most recent first). -/
theorem search_and_list_sorted_by_createdAt_desc :
    (∀ d : CursoredData Tweet,
      (TweetService.search d).list.Pairwise tweetGE ∧
      (TweetService.search d).list.Perm d.list ∧
      (TweetService.list d).list.Pairwise tweetGE ∧
      (TweetService.list d).list.Perm d.list) ∧
    TweetService.search ⟨[⟨"t1", 30⟩, ⟨"t3", 10⟩, ⟨"t2", 20⟩], none⟩ =
      ⟨[⟨"t1", 30⟩, ⟨"t2", 20⟩, ⟨"t3", 10⟩], none⟩ := by
  constructor
  · intro d
    exact ⟨List.sorted_insertionSort tweetGE d.list, List.perm_insertionSort tweetGE d.list,
      List.sorted_insertionSort tweetGE d.list, List.perm_insertionSort tweetGE d.list⟩
  · decide

/-- C2 (amended): the boolean mutation operations never reject: `like` and `retweet`
always resolve with a boolean; the result is `false` when the success marker
(`data.favorite_tweet` / `data.create_retweet`) is absent or is a falsy value such as
the empty string, and `true` whenever the marker is any object — including the empty
object, since a JS object is always truthy. -/
theorem like_retweet_marker_semantics (response : Json) :
    (∃ b, TweetService.like response = Except.ok (AllReturnTypes.boolean b)) ∧
    (favMarker response = none →
      TweetService.like response = Except.ok (AllReturnTypes.boolean false)) ∧
    (∀ fs, favMarker response = some (Json.obj fs) →
      TweetService.like response = Except.ok (AllReturnTypes.boolean true)) ∧
    (favMarker response = some (Json.str "") →
      TweetService.like response = Except.ok (AllReturnTypes.boolean false)) ∧
    (∃ b, TweetService.retweet response = Except.ok (AllReturnTypes.boolean b)) ∧
    (retweetMarker response = none →
      TweetService.retweet response = Except.ok (AllReturnTypes.boolean false)) ∧
    (∀ fs, retweetMarker response = some (Json.obj fs) →
      TweetService.retweet response = Except.ok (AllReturnTypes.boolean true)) ∧
    (retweetMarker response = some (Json.str "") →
      TweetService.retweet response = Except.ok (AllReturnTypes.boolean false)) := by
  have hl : TweetService.like response =
      Except.ok (AllReturnTypes.boolean (truthy (favMarker response))) := rfl
  have hr : TweetService.retweet response =
      Except.ok (AllReturnTypes.boolean (truthy (retweetMarker response))) := rfl
  refine ⟨⟨_, hl⟩, ?_, ?_, ?_, ⟨_, hr⟩, ?_, ?_, ?_⟩
  · intro h; rw [hl, h]; rfl
  · intro fs h; rw [hl, h]; rfl
  · intro h; rw [hl, h]; rfl
  · intro h; rw [hr, h]; rfl
  · intro fs h; rw [hr, h]; rfl
  · intro h; rw [hr, h]; rfl

/-- Witness for C2 (amended): on the empty-object envelope the marker is absent and
`like` resolves with `false`. -/
theorem like_retweet_marker_semantics_witness :
    TweetService.like (Json.obj []) = Except.ok (AllReturnTypes.boolean false) :=
  (like_retweet_marker_semantics (Json.obj [])).2.1 rfl

/-- C2 counterexample: a raw response whose success marker is present but is the empty
object makes `like` (and `retweet`) resolve with `true`, not `false` as claimed — a JS
object is truthy even when empty. -/
theorem like_retweet_empty_object_marker_true :
    favMarker likeEmptyMarkerResponse = some (Json.obj []) ∧
    TweetService.like likeEmptyMarkerResponse = Except.ok (AllReturnTypes.boolean true) ∧
    retweetMarker retweetEmptyMarkerResponse = some (Json.obj []) ∧
    TweetService.retweet retweetEmptyMarkerResponse = Except.ok (AllReturnTypes.boolean true) :=
  ⟨rfl, rfl, rfl, rfl⟩

/-- C3 counterexample: with a mocked search whose first round returns a non-empty batch
and a `next` cursor, the trace of the first two loop iterations shows the
cursor-continuation search is issued only after another full interval sleep — the event
immediately preceding the `cursor = "c"` search is `sleep 1000`, refuting "issues the
next search immediately … without sleeping": the source's `setTimeout` sits at the top
of the `while (true)` body and runs before every search. -/
theorem stream_sleeps_before_cursor_continuation :
    (streamRun streamCursorOracle 1000 2).1 =
      [StreamEvent.sleep 1000, StreamEvent.searchCall none none,
        StreamEvent.yielded e1, StreamEvent.sleep 1000,
        StreamEvent.searchCall none (some "c")] ∧
    sleepPrecedesCursorSearch (streamRun streamCursorOracle 1000 2).1 = true :=
  ⟨by decide, by decide⟩

/-- C3 (amended): when the returned batch is non-empty and a `next` cursor exists, the
generator does continue the round with `cursor` set to that token (leaving `sinceId`
untouched), and otherwise it promotes `nextSinceId` into `sinceId` and clears `cursor`;
however every iteration — cursor continuations included — begins with the polling
interval sleep followed by the search, because the sleep is unconditional at the top of
the loop body. -/
theorem stream_round_continuation (oracle : SearchArgs → CursoredData Tweet)
    (p : Nat) (s : StreamState) :
    (streamIter oracle p s).1 =
      StreamEvent.sleep p :: StreamEvent.searchCall s.sinceId s.cursor ::
        (TweetService.search (oracle ⟨s.sinceId, s.cursor⟩)).list.map StreamEvent.yielded ∧
    (streamIter oracle p s).2.cursor =
      (if 0 < (TweetService.search (oracle ⟨s.sinceId, s.cursor⟩)).list.length ∧
          (TweetService.search (oracle ⟨s.sinceId, s.cursor⟩)).next.isSome
       then (TweetService.search (oracle ⟨s.sinceId, s.cursor⟩)).next.map Cursor.value
       else none) ∧
    (streamIter oracle p s).2.sinceId =
      (if 0 < (TweetService.search (oracle ⟨s.sinceId, s.cursor⟩)).list.length ∧
          (TweetService.search (oracle ⟨s.sinceId, s.cursor⟩)).next.isSome
       then s.sinceId
       else (streamIter oracle p s).2.nextSinceId) := by
  refine ⟨rfl, ?_, ?_⟩ <;>
    · unfold streamIter
      dsimp only
      split <;> rfl

/-- C4: after any stream iteration, `nextSinceId` equals the first entity's id of the
just-fetched batch exactly when that sub-page was requested with `cursor` absent and
the batch is non-empty; on every other sub-page it is left unchanged. -/
theorem stream_nextSinceId_update (oracle : SearchArgs → CursoredData Tweet)
    (p : Nat) (s : StreamState) :
    (streamIter oracle p s).2.nextSinceId =
      (if 0 < (TweetService.search (oracle ⟨s.sinceId, s.cursor⟩)).list.length ∧
          s.cursor = none
       then (TweetService.search (oracle ⟨s.sinceId, s.cursor⟩)).list.head?.map Tweet.id
       else s.nextSinceId) := by
  unfold streamIter
  dsimp only
  split <;> rfl

/-- C5: for every transport behavior and media payload, `upload` performs the three
phases strictly in order: the first (and on the failure paths the only) calls are
Initialize carrying exactly the payload's byte size; when Initialize resolves, the next
call is Append tagged with the `media_id_string` of Initialize's response together with
the payload; when Append resolves, the last call is Finalize with that same id; a
rejected phase ends the call log at that phase, and on success the resolved value is
the media id from Initialize. -/
theorem upload_three_phase (oracle : UploadCall → Except RettiwtErr Json)
    (media : List Nat) :
    (∀ e, oracle (UploadCall.initCall media.length) = Except.error e →
      TweetService.upload oracle media =
        (Except.error e, [UploadCall.initCall media.length])) ∧
    (∀ r, oracle (UploadCall.initCall media.length) = Except.ok r →
      (∀ e, oracle (UploadCall.appendCall (mediaIdOf r) media) = Except.error e →
        TweetService.upload oracle media =
          (Except.error e,
            [UploadCall.initCall media.length, UploadCall.appendCall (mediaIdOf r) media])) ∧
      (∀ r2, oracle (UploadCall.appendCall (mediaIdOf r) media) = Except.ok r2 →
        (∀ e, oracle (UploadCall.finalizeCall (mediaIdOf r)) = Except.error e →
          TweetService.upload oracle media =
            (Except.error e,
              [UploadCall.initCall media.length, UploadCall.appendCall (mediaIdOf r) media,
                UploadCall.finalizeCall (mediaIdOf r)])) ∧
        (∀ r3, oracle (UploadCall.finalizeCall (mediaIdOf r)) = Except.ok r3 →
          TweetService.upload oracle media =
            (Except.ok (mediaIdOf r),
              [UploadCall.initCall media.length, UploadCall.appendCall (mediaIdOf r) media,
                UploadCall.finalizeCall (mediaIdOf r)])))) := by
  constructor
  · intro e he
    simp only [TweetService.upload, he]
  · intro r hr
    constructor
    · intro e he
      simp only [TweetService.upload, hr, he]
    · intro r2 hr2
      constructor
      · intro e he
        simp only [TweetService.upload, hr, hr2, he]
      · intro r3 hr3
        simp only [TweetService.upload, hr, hr2, hr3]

/-- Witness for C5: with a transport whose Initialize response carries media id `123`,
uploading the two-byte payload `[7, 8]` performs exactly Initialize (size 2), Append
(id 123, the payload) and Finalize (id 123), and resolves with id 123. -/
theorem upload_three_phase_witness :
    TweetService.upload uploadOkOracle [7, 8] =
      (Except.ok (some (Json.str "123")),
        [UploadCall.initCall 2,
          UploadCall.appendCall (some (Json.str "123")) [7, 8],
          UploadCall.finalizeCall (some (Json.str "123"))]) :=
  ((((upload_three_phase uploadOkOracle [7, 8]).2
      (Json.obj [("media_id_string", Json.str "123")]) rfl).2 Json.null rfl).2 Json.null rfl)

/-- C6 (the code at the claim's failing input): when the Initialize response contains
no media identifier, `upload` raises no error at all — in particular no
`UploadInitFailed` — and still proceeds to Append and Finalize with an `undefined`
media id, finally resolving with `undefined`; the source reads `.media_id_string`
without any presence check. -/
theorem upload_missing_media_id_proceeds :
    TweetService.upload uploadNoIdOracle [9] =
      (Except.ok none,
        [UploadCall.initCall 1, UploadCall.appendCall none [9],
          UploadCall.finalizeCall none]) :=
  rfl

/-- C7 counterexample: on a raw response whose top-level envelope is not an object (the
JSON number 5), the `TWEET_FAVORITE` extractor does not fail with `MalformedResponse`
— it silently defaults to the boolean outcome `false`, because its optional-chained
marker read never throws. -/
theorem favorite_extractor_defaults_on_nonobject_envelope :
    Json.isObj (Json.num 5) = false ∧
    extractors EResourceType.TWEET_FAVORITE (Json.num 5) =
      Except.ok (some (AllReturnTypes.boolean false)) :=
  ⟨rfl, rfl⟩

/-- C7 (amended): on a raw response whose top-level envelope is not a JSON object, only
the cursored-list and single-entity extractors fail loudly with `MalformedResponse`;
the boolean mutation extractors (`TWEET_FAVORITE`, `TWEET_RETWEET`) instead resolve to
the default outcome `false`, and the scalar/acknowledgement extractors (`TWEET_CREATE`
and the media-upload ones) resolve to absent, never an error. -/
theorem extract_envelope_dichotomy (j : Json) (h : Json.isObj j = false) :
    extractors EResourceType.LIST_TWEETS j = Except.error RettiwtErr.malformedResponse ∧
    extractors EResourceType.TWEET_SEARCH j = Except.error RettiwtErr.malformedResponse ∧
    extractors EResourceType.TWEET_FAVORITERS j = Except.error RettiwtErr.malformedResponse ∧
    extractors EResourceType.TWEET_RETWEETERS j = Except.error RettiwtErr.malformedResponse ∧
    extractors EResourceType.USER_FOLLOWING j = Except.error RettiwtErr.malformedResponse ∧
    extractors EResourceType.USER_FOLLOWERS j = Except.error RettiwtErr.malformedResponse ∧
    extractors EResourceType.USER_HIGHLIGHTS j = Except.error RettiwtErr.malformedResponse ∧
    extractors EResourceType.USER_LIKES j = Except.error RettiwtErr.malformedResponse ∧
    extractors EResourceType.USER_MEDIA j = Except.error RettiwtErr.malformedResponse ∧
    extractors EResourceType.USER_SUBSCRIPTIONS j = Except.error RettiwtErr.malformedResponse ∧
    extractors EResourceType.USER_TWEETS j = Except.error RettiwtErr.malformedResponse ∧
    extractors EResourceType.USER_TWEETS_AND_REPLIES j = Except.error RettiwtErr.malformedResponse ∧
    extractors EResourceType.TWEET_DETAILS j = Except.error RettiwtErr.malformedResponse ∧
    extractors EResourceType.USER_DETAILS_BY_USERNAME j = Except.error RettiwtErr.malformedResponse ∧
    extractors EResourceType.USER_DETAILS_BY_ID j = Except.error RettiwtErr.malformedResponse ∧
    extractors EResourceType.TWEET_FAVORITE j = Except.ok (some (AllReturnTypes.boolean false)) ∧
    extractors EResourceType.TWEET_RETWEET j = Except.ok (some (AllReturnTypes.boolean false)) ∧
    extractors EResourceType.TWEET_CREATE j = Except.ok none ∧
    extractors EResourceType.MEDIA_UPLOAD_INIT j = Except.ok none ∧
    extractors EResourceType.MEDIA_UPLOAD_APPEND j = Except.ok none ∧
    extractors EResourceType.MEDIA_UPLOAD_FINALIZE j = Except.ok none := by
  cases j <;>
    first
      | exact Bool.noConfusion h
      | exact ⟨rfl, rfl, rfl, rfl, rfl, rfl, rfl, rfl, rfl, rfl, rfl, rfl, rfl, rfl, rfl,
          rfl, rfl, rfl, rfl, rfl, rfl⟩

/-- Witness for C7 (amended): at the non-object envelope `5`, the `LIST_TWEETS`
extractor fails with `MalformedResponse`. -/
theorem extract_envelope_dichotomy_witness :
    extractors EResourceType.LIST_TWEETS (Json.num 5) =
      Except.error RettiwtErr.malformedResponse :=
  (extract_envelope_dichotomy (Json.num 5) rfl).1

/-- Success of a cursored extractor yields a cursored value: helper relating the
`Except.map` over the spec-modelled `CursoredData` constructor to its possible
outcomes. -/
theorem cursored_map_ok {j : Json} {v : Option AllReturnTypes}
    (hv : (CursoredData.ofResponse j).map (fun d => some (AllReturnTypes.cursored d)) =
      Except.ok v) :
    ∃ d : CursoredData Json, v = some (AllReturnTypes.cursored d) := by
  cases hj : CursoredData.ofResponse j with
  | error e => rw [hj] at hv; exact absurd hv (by simp [Except.map])
  | ok d =>
    rw [hj] at hv
    simp only [Except.map, Except.ok.injEq] at hv
    exact ⟨d, hv.symm⟩

/-- C9: for every cursored-list resource identifier and every raw response, a
successful extraction is always a cursored collection — never the absent value — so
the non-null assertion the services apply to the extraction result in `likers`,
`retweeters`, `list` and `search` cannot observe `undefined`. -/
theorem cursored_extractors_never_absent (r : EResourceType)
    (h : isCursoredResource r = true) (j : Json) (v : Option AllReturnTypes)
    (hv : extractors r j = Except.ok v) :
    ∃ d : CursoredData Json, v = some (AllReturnTypes.cursored d) := by
  cases r <;>
    first
      | exact Bool.noConfusion h
      | exact cursored_map_ok hv

/-- Witness for C9: at the empty-object envelope, the `LIST_TWEETS` extractor succeeds
with an (empty) cursored collection, and the theorem instantiates on it. -/
theorem cursored_extractors_never_absent_witness :
    ∃ d : CursoredData Json,
      (some (AllReturnTypes.cursored ⟨[], none⟩) : Option AllReturnTypes) =
        some (AllReturnTypes.cursored d) :=
  cursored_extractors_never_absent EResourceType.LIST_TWEETS rfl (Json.obj [])
    (some (AllReturnTypes.cursored ⟨[], none⟩)) rfl

/-- Unfolding one iteration of the generator run. -/
theorem streamRun_succ (oracle : SearchArgs → CursoredData Tweet) (p n : Nat) :
    streamRun oracle p (n + 1) =
      ((streamRun oracle p n).1 ++ (streamIter oracle p (streamRun oracle p n).2).1,
        (streamIter oracle p (streamRun oracle p n).2).2) :=
  rfl

/-- In the streaming scenario, the generator state after every round from the first on
is the fixed point: no cursor, watermark `sinceId = "e1"`. -/
theorem streamScenario_state (n : Nat) :
    (streamRun streamScenarioSearch 1000 (n + 1)).2 = ⟨none, some "e1", some "e1"⟩ := by
  induction n with
  | zero => decide
  | succ n ih =>
      rw [streamRun_succ, ih]
      rfl

/-- Flattening one more replica appends one more block. -/
theorem flatten_replicate_snoc {α : Type} (L : List α) (n : Nat) :
    (List.replicate (n + 1) L).flatten = (List.replicate n L).flatten ++ L := by
  rw [List.replicate_succ', List.flatten_append]
  simp

/-- C8: in the mocked scenario (polling interval 1000 ms; the first search — no
`sinceId`, no cursor — returns `[e1 (t=5), e2 (t=3)]` with `next` absent; every later
search returns an empty batch), the generator's trace is: a 1000 ms sleep, the first
poll, the yields `e1` then `e2` in that order, another 1000 ms sleep, and a poll with
`sinceId = "e1"` and `cursor` absent; and it never terminates — every further round
appends exactly one more sleep and one more `sinceId = "e1"` poll, yielding nothing. -/
theorem stream_scenario_trace :
    (streamRun streamScenarioSearch 1000 2).1 =
      [StreamEvent.sleep 1000, StreamEvent.searchCall none none, StreamEvent.yielded e1,
        StreamEvent.yielded e2, StreamEvent.sleep 1000,
        StreamEvent.searchCall (some "e1") none] ∧
    ∀ n : Nat, (streamRun streamScenarioSearch 1000 (n + 2)).1 =
      [StreamEvent.sleep 1000, StreamEvent.searchCall none none, StreamEvent.yielded e1,
        StreamEvent.yielded e2, StreamEvent.sleep 1000,
        StreamEvent.searchCall (some "e1") none] ++
        (List.replicate n
          [StreamEvent.sleep 1000, StreamEvent.searchCall (some "e1") none]).flatten := by
  have h6 : (streamRun streamScenarioSearch 1000 2).1 =
      [StreamEvent.sleep 1000, StreamEvent.searchCall none none, StreamEvent.yielded e1,
        StreamEvent.yielded e2, StreamEvent.sleep 1000,
        StreamEvent.searchCall (some "e1") none] := by decide
  refine ⟨h6, ?_⟩
  intro n
  induction n with
  | zero => simpa using h6
  | succ n ih =>
      show (streamRun streamScenarioSearch 1000 ((n + 2) + 1)).1 = _
      rw [streamRun_succ, streamScenario_state (n + 1), ih, flatten_replicate_snoc]
      have hiter : (streamIter streamScenarioSearch 1000 ⟨none, some "e1", some "e1"⟩).1 =
          [StreamEvent.sleep 1000, StreamEvent.searchCall (some "e1") none] := by decide
      rw [hiter, List.append_assoc]

/-- A successful upload loop uploads the items left to right and collects their ids in
the same order. -/
theorem postUploadLoop_ok (uploadOracle : String → Except RettiwtErr (Option Json))
    (items : List MediaItem)
    (h : items.all (fun item => isOkResult (uploadOracle item.path)) = true) :
    postUploadLoop uploadOracle items =
      (Except.ok (items.map fun item =>
          TweetMediaArgs.mk (uploadResultId (uploadOracle item.path)) item.tags),
        items.map fun item => PostEvent.uploadCall item.path) := by
  induction items with
  | nil => rfl
  | cons item rest ih =>
      rw [List.all_cons, Bool.and_eq_true] at h
      cases hu : uploadOracle item.path with
      | error e =>
          rw [hu] at h
          exact absurd h.1 (by simp [isOkResult])
      | ok id =>
          simp only [postUploadLoop, hu, ih h.2, List.map_cons, uploadResultId, Except.map]

/-- C10: when `post` is called with options whose media all upload successfully, the
event trace is exactly the uploads of `options.media`, one per item, in the order of
`options.media` (each awaited before the next begins), followed by the single
tweet-creation request whose payload carries the uploaded media ids in that same
order together with the items' tags. -/
theorem post_uploads_sequentially_before_create
    (uploadOracle : String → Except RettiwtErr (Option Json))
    (createOracle : Option String → List TweetMediaArgs → Option String → Option String →
      Except RettiwtErr Json)
    (options : TweetArgs)
    (h : options.media.all (fun item => isOkResult (uploadOracle item.path)) = true) :
    (TweetService.post uploadOracle createOracle options).2 =
      (options.media.map fun item => PostEvent.uploadCall item.path) ++
        [PostEvent.createCall options.text
          (options.media.map fun item =>
            TweetMediaArgs.mk (uploadResultId (uploadOracle item.path)) item.tags)
          options.quote options.replyTo] := by
  have hl := postUploadLoop_ok uploadOracle options.media h
  cases hc : createOracle options.text (options.media.map fun item =>
      TweetMediaArgs.mk (uploadResultId (uploadOracle item.path)) item.tags)
      options.quote options.replyTo with
  | error e => simp [TweetService.post, TweetArgs.ofOptions, hl, hc]
  | ok resp => simp [TweetService.post, TweetArgs.ofOptions, hl, hc]

/-- Witness for C10: with two media items, the trace is the two uploads in option
order followed by the creation request carrying ids `m1`, `m2` in that order. -/
theorem post_uploads_sequentially_before_create_witness :
    (TweetService.post postWitnessUpload postWitnessCreate postWitnessOptions).2 =
      [PostEvent.uploadCall "a.jpg", PostEvent.uploadCall "b.jpg",
        PostEvent.createCall (some "hi")
          [TweetMediaArgs.mk (some (Json.str "m1")) ["u1"],
            TweetMediaArgs.mk (some (Json.str "m2")) []] none none] :=
  post_uploads_sequentially_before_create postWitnessUpload postWitnessCreate
    postWitnessOptions rfl
